import Mathlib

/-!
Shallow embedding of the domain logic of the Django application `presupuestos`
(budget and accounts-payable tracking), translated from
`src/presupuestos/models.py`, `src/presupuestos/forms.py` and
`src/presupuestos/views.py`, together with proofs of the behavioural
properties claimed of it.

Modelling conventions:
* Monetary `Decimal(12,2)` columns hold exact fixed-point numbers; every
  property below concerns only signs, order and sums, which are invariant
  under the fixed scale, so such amounts are modelled by `Int` (exact
  integer arithmetic), as are the `IntegerField` columns.
* Dates are integers (days); `date.today()` becomes an explicit `hoy`
  parameter, and `d1 - d2` is the day difference `(d1 - d2).days`.
* Database rows are lists of records; a Django `QuerySet.first()` on a table
  is `List.head?` (it yields `none` on an empty table and does not raise).
* Python `str.lower()` / the SQL `Lower()` of the unique constraints is
  `lower` below (character-wise lowering), and `str.strip()` is `strip`.
* A view that raises or answers an error JSON is `Except.error`; a view that
  commits its writes returns the updated rows in `Except.ok`.
-/

namespace Presupuestos

/-- Character-wise lowering, the model of Python `str.lower()` and of the SQL
`Lower(...)` used by the case-insensitive unique constraints. -/
def lower (s : String) : String :=
  ⟨s.data.map Char.toLower⟩

/-- Model of Python `str.strip()`: drop whitespace from both ends. -/
def strip (s : String) : String :=
  ⟨((s.data.dropWhile Char.isWhitespace).reverse.dropWhile Char.isWhitespace).reverse⟩

/-- Decidable success test for `Except`. -/
def esOk {ε α : Type} (e : Except ε α) : Bool :=
  match e with
  | .ok _ => true
  | .error _ => false

/-- Model of `Presupuesto` (models.py:12): name, state ("abierto"/"cerrado"),
period, deadline and description; `fecha_creacion` and `creado_por` are kept
out because no claim mentions them. -/
structure Presupuesto where
  nombre : String
  estado : String
  periodo : String
  fecha_limite : Int
  descripcion : String
  deriving DecidableEq

/-- Model of `ItemPresupuesto` (models.py:76): a line item of one budget. -/
structure ItemPresupuesto where
  nombre : String
  descripcion : String
  monto : Int
  deriving DecidableEq

/-- Model of `Transaccion` (models.py:123): a payment recorded against a line
item; the two foreign keys are implicit in where the record is stored (each
item carries its own transaction list below). -/
structure Transaccion where
  monto : Int
  metodo_pago : String
  referencia : String
  fecha_pago : Int
  observaciones : String
  usuario : Option Nat
  deriving DecidableEq

/-- `Presupuesto.puede_modificar` (models.py:72). -/
def Presupuesto.puede_modificar (p : Presupuesto) : Bool :=
  p.estado = "abierto"

/-- `ItemPresupuesto.total_transacciones` (models.py:113): sum of the amounts
of the transactions attached to the item (`0` if there are none). -/
def total_transacciones (transacciones : List Transaccion) : Int :=
  (transacciones.map (·.monto)).sum

/-- The remaining balance of a line item, computed in the views as
`saldo_disponible = item.monto - total_ejecutado` (views.py:1500, 1601). -/
def saldo_disponible (item : ItemPresupuesto) (transacciones : List Transaccion) : Int :=
  item.monto - total_transacciones transacciones

/-- A line item together with its posted transactions. -/
structure ItemConTransacciones where
  item : ItemPresupuesto
  transacciones : List Transaccion
  deriving DecidableEq

/-- A budget row together with its line items and their transactions. -/
structure PresupuestoDB where
  presupuesto : Presupuesto
  items : List ItemConTransacciones
  deriving DecidableEq

/-- `Presupuesto.total` (models.py:60): sum of the item amounts, `0` if none. -/
def Presupuesto.total (db : PresupuestoDB) : Int :=
  (db.items.map (·.item.monto)).sum

/-- `Presupuesto.total_transacciones` (models.py:66): total paid over all
transactions of the budget. Every transaction of the budget belongs to one of
its items (the posting forms restrict the item choice to the budget), so the
sum runs over the items. -/
def Presupuesto.total_pagado (db : PresupuestoDB) : Int :=
  (db.items.map (fun ic => total_transacciones ic.transacciones)).sum

/-- `TransaccionForm.clean_monto` (forms.py:165). The Python guard is
`if monto and monto <= Decimal(0)`: a zero amount is falsy, so the test is
skipped for `0` and only strictly negative amounts are rejected. -/
def clean_monto (monto : Int) : Except String Int :=
  if monto ≠ 0 ∧ monto ≤ 0 then .error "El monto debe ser mayor a 0."
  else .ok monto

/-- `crear_transaccion_simple` (views.py:1739): the amount must not be
negative, the budget of the chosen item must be "cerrado", and then the
transaction is created with no balance-sufficiency check (the source removed
it on purpose, views.py:1771). Returns the updated transaction list of the
target item. -/
def crear_transaccion_simple (presupuesto : Presupuesto) (item : ItemPresupuesto)
    (transacciones : List Transaccion) (monto : Int) (fecha_pago : Int)
    (metodo_pago referencia observaciones : String) (usuario : Option Nat) :
    Except String (List Transaccion) :=
  if monto < 0 then .error "El monto no puede ser negativo"
  else if presupuesto.estado ≠ "cerrado" then
    .error "Solo puede asignar pagos a presupuestos CERRADOS"
  else
    .ok (transacciones ++
      [{ monto := monto, metodo_pago := metodo_pago, referencia := referencia,
         fecha_pago := fecha_pago, observaciones := observaciones, usuario := usuario }])

/-- Model of `CuentaPorPagar` (models.py:212). -/
structure CuentaPorPagar where
  numero_factura : String
  nombre_proveedor : String
  rut_proveedor : String
  monto : Int
  fecha_emision : Int
  fecha_limite : Int
  fecha_pago : Option Int
  estado : String
  observaciones : String
  deriving DecidableEq

/-- `CuentaPorPagar.puede_modificar` (models.py:320). -/
def CuentaPorPagar.puede_modificar (c : CuentaPorPagar) : Bool :=
  c.estado = "pendiente"

/-- `CuentaPorPagar.clean` (models.py:273): rejects any invoice number whose
length is `≥ 50` — including a length of exactly 50, although the column is
declared `max_length=50` with help text "Máximo 50 caracteres". -/
def CuentaPorPagar.clean (c : CuentaPorPagar) : Except String Unit :=
  if 50 ≤ c.numero_factura.length then
    .error "El número de factura debe tener menos de 50 caracteres."
  else .ok ()

/-- `CuentaPorPagar.dias_restantes` (models.py:288): `None` for a paid or
voided payable, otherwise the day difference `fecha_limite - hoy`. -/
def CuentaPorPagar.dias_restantes (c : CuentaPorPagar) (hoy : Int) : Option Int :=
  if c.estado = "pagado" ∨ c.estado = "anulado" then none
  else some (c.fecha_limite - hoy)

/-- `CuentaPorPagar.get_color_estado` (models.py:296). The source tests
`self.estado in ['pagado','anulado'] or dias is None`; by `dias_restantes`
those two conditions coincide, so matching on `dias_restantes` is exact. -/
def CuentaPorPagar.get_color_estado (c : CuentaPorPagar) (hoy : Int) : String :=
  match c.dias_restantes hoy with
  | none => "gray"
  | some dias =>
    if dias < 0 then "red"
    else if dias ≤ 1 then "red"
    else if dias ≤ 5 then "orange"
    else "green"

/-- Model of `HistorialPago` (models.py:331); the `usuario` column is a
non-nullable foreign key (`on_delete=PROTECT`, no `null=True`). -/
structure HistorialPago where
  monto_pagado : Int
  metodo_pago : String
  referencia : String
  observaciones : String
  usuario : Nat
  estado : String
  deriving DecidableEq

/-- `get_or_create_default_user` (views.py:43). `User.objects.first()`
returns `None` on an empty table instead of raising, so the `try` branch
always succeeds and the `except` branch — the lookup and on-demand creation
of the `sistema_default` account — is unreachable (it would only run on a
database error, which the embedding excludes). -/
def get_or_create_default_user (usuarios : List Nat) : Option Nat :=
  usuarios.head?

/-- `registrar_pago` (views.py:862). Guard: the payable must still be
"pendiente". The acting user is the authenticated caller if present, else
`get_or_create_default_user`; if that resolution yields no user, the
`HistorialPago` insert violates the non-nullable `usuario` column and the
surrounding `except` turns the `IntegrityError` into an error response with
no state change. On success a single history entry is appended, the payable
becomes "pagado" and its `fecha_pago` is set to today. -/
def registrar_pago (c : CuentaPorPagar) (historial : List HistorialPago)
    (current_user : Option Nat) (usuarios : List Nat) (hoy : Int) :
    Except String (CuentaPorPagar × List HistorialPago) :=
  if ¬ c.puede_modificar then
    .error "No se puede registrar pago en una cuenta pagada o anulada"
  else
    match current_user.orElse (fun _ => get_or_create_default_user usuarios) with
    | none => .error "IntegrityError: columna usuario no admite NULL"
    | some u =>
      .ok ({ c with estado := "pagado", fecha_pago := some hoy },
           historial ++
             [{ monto_pagado := c.monto, metodo_pago := "otros",
                referencia := "PAGO_REGISTRADO",
                observaciones := "Pago registrado mediante confirmación",
                usuario := u, estado := "pagado" }])

/-- Per-item row of the comparison payload (views.py:1972). -/
structure ItemDetalle where
  nombre : String
  presupuestado : Int
  ejecutado : Int
  diferencia : Int
  deriving DecidableEq

/-- Comparison payload of the effective comparison API (views.py:1979). -/
structure ComparacionData where
  items : List ItemDetalle
  presupuesto_nombre : String
  deriving DecidableEq

/-- The LAST definition of `api_comparar_presupuesto` (views.py:1961) — the
one Python binds to the route, shadowing the two earlier definitions of the
same name. It performs no check of the budget state: it answers the full
comparison payload for any budget. -/
def api_comparar_presupuesto (db : PresupuestoDB) : Except String ComparacionData :=
  .ok { items := db.items.map (fun ic =>
          { nombre := ic.item.nombre
            presupuestado := ic.item.monto
            ejecutado := total_transacciones ic.transacciones
            diferencia := ic.item.monto - total_transacciones ic.transacciones })
        presupuesto_nombre := db.presupuesto.nombre }

/-- The SHADOWED middle definition of `api_comparar_presupuesto`
(views.py:1908), which does validate that the budget is "cerrado" before
computing anything; only its guard is relevant here. -/
def api_comparar_presupuesto_v2 (db : PresupuestoDB) : Except String ComparacionData :=
  if db.presupuesto.estado ≠ "cerrado" then
    .error "El presupuesto no está cerrado. Solo se pueden comparar presupuestos con estado CERRADO."
  else
    .ok { items := db.items.map (fun ic =>
            { nombre := ic.item.nombre
              presupuestado := ic.item.monto
              ejecutado := total_transacciones ic.transacciones
              diferencia := ic.item.monto - total_transacciones ic.transacciones })
          presupuesto_nombre := db.presupuesto.nombre }

/-- `PresupuestoForm.clean_nombre` (forms.py:23): the name is stripped, must
be non-empty, at most 50 characters, and must not repeat an existing budget
name under the case-insensitive `nombre__iexact` lookup. -/
def clean_nombre (existentes : List String) (nombre : String) : Except String String :=
  if strip nombre = "" then .error "El nombre del presupuesto es obligatorio."
  else if (strip nombre).length > 50 then
    .error "El nombre no puede exceder los 50 caracteres."
  else if existentes.any (fun e => lower e = lower (strip nombre)) then
    .error "Ya existe un presupuesto con ese nombre."
  else .ok (strip nombre)

/-- The candidate name tried by the collision loops of `copiar_items`
(views.py:382) and `copiar_presupuesto` (views.py:450): the Python f-string
`f"{nombre} ({contador})"`, with the decimal numeral of the counter. -/
def candidato (base : String) (contador : Nat) : String :=
  base ++ " (" ++ Nat.repr contador ++ ")"

/-- The body of the `while nombre_final in nombres_existentes` loop
(views.py:381 and 449): try `base (1)`, `base (2)`, … until the candidate is
not an existing name. The Python loop terminates because decimal numerals are
pairwise distinct while the name set is finite; the structural `fuel`
argument makes that termination explicit, and
`nombres_existentes.length + 1` steps are proved sufficient below. -/
def busca_nombre (nombres_existentes : List String) (base : String) :
    Nat → Nat → String
  | 0, contador => candidato base contador
  | fuel + 1, contador =>
    if candidato base contador ∈ nombres_existentes then
      busca_nombre nombres_existentes base fuel (contador + 1)
    else candidato base contador

/-- `nombre_final` as computed by the collision loops (views.py:378, 446):
the original name if it is unused, otherwise the first free numbered
candidate starting from `(1)`. -/
def nombre_final (nombres_existentes : List String) (base : String) : String :=
  if base ∈ nombres_existentes then
    busca_nombre nombres_existentes base (nombres_existentes.length + 1) 1
  else base

/-- The item-copy loop of `copiar_presupuesto` (views.py:444): the
destination budget is freshly created, so the name set starts empty and is
extended with each chosen name; every item is cloned with its amount and its
disambiguated name. No create can fail here: the source names are pairwise
distinct (case-insensitively, by the unique constraint on the source budget),
so each clone keeps its verbatim name and the constraint holds in the copy. -/
def copiar_items_de_presupuesto :
    List ItemPresupuesto → List String → List ItemPresupuesto
  | [], _ => []
  | item :: resto, nombres_existentes =>
    let nf := nombre_final nombres_existentes item.nombre
    { item with nombre := nf } ::
      copiar_items_de_presupuesto resto (nombres_existentes ++ [nf])

/-- Sum of the amounts of a list of items, the value of `Presupuesto.total`
on the corresponding budget. -/
def total_items (items : List ItemPresupuesto) : Int :=
  (items.map (·.monto)).sum

/-- `copiar_presupuesto` (views.py:420): fails only when the requested new
name is empty; otherwise it creates the new budget with the requested name —
with NO name-uniqueness check of any kind (the form path is bypassed and
`Presupuesto` has no unique constraint on `nombre` in models.py) — and copies
all items through the collision loop. The result is the budget-name table
after the operation plus the cloned items. -/
def copiar_presupuesto (presupuestos : List String)
    (items_original : List ItemPresupuesto) (nombre_nuevo : String) :
    Except String (List String × List ItemPresupuesto) :=
  if nombre_nuevo = "" then
    .error "El nombre del nuevo presupuesto es requerido"
  else
    .ok (presupuestos ++ [nombre_nuevo], copiar_items_de_presupuesto items_original [])

/-- The insert of one cloned item in `copiar_items` (views.py:389): the
database enforces `UniqueConstraint(Lower('nombre'), 'presupuesto')`
(models.py:102), so the insert raises `IntegrityError` exactly when some item
of the destination budget already has the same name up to case; the caller
swallows that error. `none` models the raised `IntegrityError`. -/
def inserta_item_ci (destino : List ItemPresupuesto) (item : ItemPresupuesto) :
    Option (List ItemPresupuesto) :=
  if destino.any (fun d => lower d.nombre = lower item.nombre) then none
  else some (destino ++ [item])

/-- The item loop of `copiar_items` (views.py:367): for each selected source
item, the existing names of the destination are re-read from the database
(hence they include the items created by earlier iterations), the collision
loop picks a name by exact case-sensitive membership, and the item is
inserted; an `IntegrityError` is swallowed by `except IntegrityError:
continue` (views.py:399), silently skipping the item. Returns the final
destination items and the `items_copiados` counter that the view reports in
its unconditional success message (views.py:402). -/
def copiar_items :
    List ItemPresupuesto → List ItemPresupuesto → Nat → List ItemPresupuesto × Nat
  | [], destino, copiados => (destino, copiados)
  | item :: resto, destino, copiados =>
    let nombres_existentes := destino.map (·.nombre)
    let nf := nombre_final nombres_existentes item.nombre
    match inserta_item_ci destino { item with nombre := nf } with
    | some destino2 => copiar_items resto destino2 (copiados + 1)
    | none => copiar_items resto destino copiados

/-- Example of an OPEN budget holding one item, used to evaluate the
comparison API at a concrete input. -/
def presupuestoAbiertoEj : PresupuestoDB :=
  { presupuesto := { nombre := "Enero 2025", estado := "abierto", periodo := "Mensual",
                     fecha_limite := 31, descripcion := "" },
    items := [{ item := { nombre := "Insumos", descripcion := "", monto := 50000 },
                transacciones := [] }] }

/-- Example of a closed budget (its row only). -/
def presupuestoCerradoEj : Presupuesto :=
  { nombre := "Jan-2025", estado := "cerrado", periodo := "Mensual",
    fecha_limite := 31, descripcion := "" }

/-- Line item "Supplies" with amount 50000 of the overrun scenario. -/
def itemInsumos50Ej : ItemPresupuesto :=
  { nombre := "Supplies", descripcion := "", monto := 50000 }

/-- First posted transaction of the overrun scenario. -/
def tx20000Ej : Transaccion :=
  { monto := 20000, metodo_pago := "efectivo", referencia := "", fecha_pago := 10,
    observaciones := "", usuario := none }

/-- Second posted transaction of the overrun scenario. -/
def tx40000Ej : Transaccion :=
  { monto := 40000, metodo_pago := "efectivo", referencia := "", fecha_pago := 11,
    observaciones := "", usuario := none }

/-- Example of a pending payable, due 3 days before day 0. -/
def cuentaPendienteEj : CuentaPorPagar :=
  { numero_factura := "F001-2024", nombre_proveedor := "Proveedor Uno",
    rut_proveedor := "12345678-9", monto := 150000, fecha_emision := -10,
    fecha_limite := -3, fecha_pago := none, estado := "pendiente", observaciones := "" }

/-- The same payable with an invoice number of exactly 50 characters. -/
def cuentaFactura50Ej : CuentaPorPagar :=
  { cuentaPendienteEj with
    numero_factura := "AAAAAAAAAAAAAAAAAAAAAAAAAAAAAAAAAAAAAAAAAAAAAAAAAA" }

/-- The same payable with an invoice number of 49 characters. -/
def cuentaFactura49Ej : CuentaPorPagar :=
  { cuentaPendienteEj with
    numero_factura := "AAAAAAAAAAAAAAAAAAAAAAAAAAAAAAAAAAAAAAAAAAAAAAAAA" }

/-! Auxiliary facts about decimal numerals, needed to reason about the name
collision loop: two distinct counters always yield distinct candidate names,
so the loop always finds a free name within `nombres.length + 1` steps. -/

theorem digitChar_inj : ∀ a, a < 10 → ∀ b, b < 10 →
    Nat.digitChar a = Nat.digitChar b → a = b := by decide

theorem toDigitsCore_acc (fuel : Nat) : ∀ (n : Nat) (ds : List Char),
    Nat.toDigitsCore 10 fuel n ds = Nat.toDigitsCore 10 fuel n [] ++ ds := by
  induction fuel with
  | zero => intro n ds; simp [Nat.toDigitsCore]
  | succ fuel ih =>
    intro n ds
    simp only [Nat.toDigitsCore]
    by_cases h : n / 10 = 0
    · simp [h]
    · simp only [h, if_false]
      rw [ih (n / 10) (Nat.digitChar (n % 10) :: ds), ih (n / 10) [Nat.digitChar (n % 10)]]
      simp

theorem toDigitsCore_fuel : ∀ (n f1 f2 : Nat) (ds : List Char), n < f1 → n < f2 →
    Nat.toDigitsCore 10 f1 n ds = Nat.toDigitsCore 10 f2 n ds := by
  intro n
  induction n using Nat.strong_induction_on with
  | _ n ih =>
    intro f1 f2 ds h1 h2
    obtain ⟨a, rfl⟩ : ∃ a, f1 = a + 1 := ⟨f1 - 1, by omega⟩
    obtain ⟨b, rfl⟩ : ∃ b, f2 = b + 1 := ⟨f2 - 1, by omega⟩
    simp only [Nat.toDigitsCore]
    by_cases h : n / 10 = 0
    · simp [h]
    · simp only [h, if_false]
      have hn : 0 < n := by omega
      have hlt : n / 10 < n := Nat.div_lt_self hn (by norm_num)
      exact ih (n / 10) hlt a b _ (by omega) (by omega)

theorem toDigits_small (n : Nat) (h : n < 10) : Nat.toDigits 10 n = [Nat.digitChar n] := by
  have h1 : n / 10 = 0 := Nat.div_eq_of_lt h
  have h2 : n % 10 = n := Nat.mod_eq_of_lt h
  simp [Nat.toDigits, Nat.toDigitsCore, h1, h2]

theorem toDigits_step (n : Nat) (h : 10 ≤ n) :
    Nat.toDigits 10 n = Nat.toDigits 10 (n / 10) ++ [Nat.digitChar (n % 10)] := by
  have hd : ¬ (n / 10 = 0) := by omega
  simp only [Nat.toDigits, Nat.toDigitsCore, hd, if_false]
  rw [toDigitsCore_acc]
  congr 1
  have hlt : n / 10 < n := Nat.div_lt_self (by omega) (by norm_num)
  exact toDigitsCore_fuel (n / 10) n (n / 10 + 1) [] hlt (Nat.lt_succ_self _)

theorem toDigits_ne_nil (n : Nat) : Nat.toDigits 10 n ≠ [] := by
  rcases lt_or_ge n 10 with h | h
  · simp [toDigits_small n h]
  · simp [toDigits_step n h]

theorem toDigits_inj : ∀ n m : Nat, Nat.toDigits 10 n = Nat.toDigits 10 m → n = m := by
  intro n
  induction n using Nat.strong_induction_on with
  | _ n ih =>
    intro m h
    rcases lt_or_ge n 10 with hn | hn <;> rcases lt_or_ge m 10 with hm | hm
    · rw [toDigits_small n hn, toDigits_small m hm] at h
      exact digitChar_inj n hn m hm (List.cons.inj h).1
    · exfalso
      rw [toDigits_small n hn, toDigits_step m hm] at h
      have hlen := congrArg List.length h
      simp at hlen
      exact toDigits_ne_nil (m / 10) hlen
    · exfalso
      rw [toDigits_small m hm, toDigits_step n hn] at h
      have hlen := congrArg List.length h
      simp at hlen
      exact toDigits_ne_nil (n / 10) hlen
    · rw [toDigits_step n hn, toDigits_step m hm] at h
      obtain ⟨h1, h2⟩ := List.append_inj' h (by simp)
      have hq : n / 10 = m / 10 :=
        ih (n / 10) (Nat.div_lt_self (by omega) (by norm_num)) (m / 10) h1
      have hr : n % 10 = m % 10 :=
        digitChar_inj _ (Nat.mod_lt _ (by norm_num)) _ (Nat.mod_lt _ (by norm_num))
          (List.cons.inj h2).1
      omega

theorem repr_nat_inj : ∀ n m : Nat, Nat.repr n = Nat.repr m → n = m := by
  intro n m h
  apply toDigits_inj
  have := congrArg String.data h
  simpa [Nat.repr, List.asString] using this

theorem candidato_inj (base : String) : ∀ n m : Nat,
    candidato base n = candidato base m → n = m := by
  intro n m h
  have hd := congrArg String.data h
  simp only [candidato, String.data_append] at hd
  have h1 := List.append_cancel_right hd
  have h2 := List.append_cancel_left h1
  exact repr_nat_inj n m (String.ext h2)

theorem existe_libre (nombres : List String) (base : String) :
    ∃ k, k < nombres.length + 1 ∧ candidato base (k + 1) ∉ nombres := by
  by_contra hc
  push_neg at hc
  have hinj : Function.Injective (fun k : Nat => candidato base (k + 1)) := by
    intro a b hab
    have := candidato_inj base (a + 1) (b + 1) hab
    omega
  have hcard : ((Finset.range (nombres.length + 1)).image
      (fun k => candidato base (k + 1))).card = nombres.length + 1 := by
    rw [Finset.card_image_of_injective _ hinj, Finset.card_range]
  have hsub : ((Finset.range (nombres.length + 1)).image
      (fun k => candidato base (k + 1))) ⊆ nombres.toFinset := by
    intro s hs
    simp only [Finset.mem_image, Finset.mem_range] at hs
    obtain ⟨k, hk, rfl⟩ := hs
    exact List.mem_toFinset.mpr (hc k hk)
  have hle := Finset.card_le_card hsub
  have hfin := List.toFinset_card_le nombres
  omega

theorem busca_spec (nombres : List String) (base : String) :
    ∀ fuel contador, (∃ k, k < fuel ∧ candidato base (contador + k) ∉ nombres) →
      ∃ n, contador ≤ n ∧ busca_nombre nombres base fuel contador = candidato base n ∧
        candidato base n ∉ nombres ∧
        ∀ m, contador ≤ m → m < n → candidato base m ∈ nombres := by
  intro fuel
  induction fuel with
  | zero =>
    intro contador h
    obtain ⟨k, hk, -⟩ := h
    omega
  | succ fuel ih =>
    intro contador hex
    by_cases hc : candidato base contador ∈ nombres
    · have hex2 : ∃ k, k < fuel ∧ candidato base (contador + 1 + k) ∉ nombres := by
        obtain ⟨k, hk, hfree⟩ := hex
        match k, hfree with
        | 0, hfree => exact absurd hc hfree
        | k + 1, hfree =>
          exact ⟨k, by omega,
            by rw [show contador + 1 + k = contador + (k + 1) by omega]; exact hfree⟩
      obtain ⟨n, hn1, hn2, hn3, hn4⟩ := ih (contador + 1) hex2
      refine ⟨n, by omega, ?_, hn3, ?_⟩
      · simpa [busca_nombre, hc] using hn2
      · intro m hm1 hm2
        rcases Nat.eq_or_lt_of_le hm1 with rfl | hlt
        · exact hc
        · exact hn4 m hlt hm2
    · exact ⟨contador, le_refl _, by simp [busca_nombre, hc], hc, by omega⟩

theorem nombre_final_spec (nombres : List String) (base : String) :
    (base ∉ nombres → nombre_final nombres base = base) ∧
    (base ∈ nombres → ∃ n, 1 ≤ n ∧ nombre_final nombres base = candidato base n ∧
        candidato base n ∉ nombres ∧
        ∀ m, 1 ≤ m → m < n → candidato base m ∈ nombres) := by
  constructor
  · intro h; simp [nombre_final, h]
  · intro h
    obtain ⟨k, hk, hfree⟩ := existe_libre nombres base
    have hex : ∃ j, j < nombres.length + 1 ∧ candidato base (1 + j) ∉ nombres :=
      ⟨k, hk, by rw [Nat.add_comm]; exact hfree⟩
    obtain ⟨n, hn1, hn2, hn3, hn4⟩ := busca_spec nombres base (nombres.length + 1) 1 hex
    exact ⟨n, hn1, by simp [nombre_final, h, hn2], hn3, fun m h1 h2 => hn4 m h1 h2⟩

theorem total_copiado : ∀ (items : List ItemPresupuesto) (nombres : List String),
    total_items (copiar_items_de_presupuesto items nombres) = total_items items := by
  intro items
  induction items with
  | nil => intro nombres; rfl
  | cons item resto ih =>
    intro nombres
    simp only [copiar_items_de_presupuesto, total_items, List.map_cons, List.sum_cons]
    have := ih (nombres ++ [nombre_final nombres item.nombre])
    simp only [total_items] at this
    rw [this]

/-- C1: the claim states that the budget-comparison API fails with a
"budget must be closed" error for every open budget and returns no comparison
data. Evaluating the route-bound (last) definition of
`api_comparar_presupuesto` at a concrete open budget shows the opposite: it
succeeds and answers a full comparison payload; only the shadowed middle
definition of the same name performs the required check. -/
theorem comparacion_no_rechaza_presupuesto_abierto :
    presupuestoAbiertoEj.presupuesto.estado = "abierto" ∧
    api_comparar_presupuesto presupuestoAbiertoEj =
      .ok { items := [{ nombre := "Insumos", presupuestado := 50000,
                        ejecutado := 0, diferencia := 50000 }],
            presupuesto_nombre := "Enero 2025" } ∧
    esOk (api_comparar_presupuesto_v2 presupuestoAbiertoEj) = false :=
  ⟨rfl, rfl, rfl⟩

/-- C2: posting a transaction against a closed budget accepts an amount of
exactly 0 (a transaction with amount 0 is recorded) and the amount is
rejected exactly when it is strictly negative — both in the direct view
`crear_transaccion_simple` and in the form validator `clean_monto`. -/
theorem monto_cero_aceptado (p : Presupuesto) (item : ItemPresupuesto)
    (txs : List Transaccion) (monto fecha : Int) (mp ref obs : String)
    (usr : Option Nat) (hcerrado : p.estado = "cerrado") :
    crear_transaccion_simple p item txs 0 fecha mp ref obs usr =
      .ok (txs ++ [{ monto := 0, metodo_pago := mp, referencia := ref,
                     fecha_pago := fecha, observaciones := obs, usuario := usr }]) ∧
    (esOk (crear_transaccion_simple p item txs monto fecha mp ref obs usr) = false ↔
      monto < 0) ∧
    clean_monto 0 = .ok 0 ∧
    (esOk (clean_monto monto) = false ↔ monto < 0) := by
  refine ⟨?_, ?_, ?_, ?_⟩
  · simp [crear_transaccion_simple, hcerrado]
  · by_cases hm : monto < 0
    · simp [crear_transaccion_simple, hm, esOk]
    · simp [crear_transaccion_simple, hm, hcerrado, esOk]
  · simp [clean_monto]
  · by_cases hm : monto < 0
    · have hand : monto ≠ 0 ∧ monto ≤ 0 := by omega
      simp [clean_monto, hand, esOk, hm]
    · have hand : ¬ (monto ≠ 0 ∧ monto ≤ 0) := by omega
      simp [clean_monto, hand, esOk, hm]

/-- Witness for C2 at a concrete closed budget: amount 0 is recorded, amount
-5 is rejected. -/
theorem monto_cero_aceptado_witness :
    crear_transaccion_simple presupuestoCerradoEj itemInsumos50Ej [] 0 10 "efectivo" "" "" none =
      .ok [{ monto := 0, metodo_pago := "efectivo", referencia := "", fecha_pago := 10,
             observaciones := "", usuario := none }] ∧
    esOk (crear_transaccion_simple presupuestoCerradoEj itemInsumos50Ej [] (-5) 10
      "efectivo" "" "" none) = false := by
  have h := monto_cero_aceptado presupuestoCerradoEj itemInsumos50Ej [] (-5) 10
    "efectivo" "" "" none rfl
  exact ⟨h.1, h.2.1.mpr (by decide)⟩

/-- C3: posting against an item of a closed budget never checks the remaining
balance: any amount `M ≥ 0` is accepted — with no hypothesis relating `M` to
the balance — and afterwards the balance is `A - (S + M)`, which may be
negative. -/
theorem sobregiro_sin_chequeo_de_saldo (p : Presupuesto) (item : ItemPresupuesto)
    (txs : List Transaccion) (M fecha : Int) (mp ref obs : String)
    (usr : Option Nat) (hcerrado : p.estado = "cerrado") (hM : 0 ≤ M) :
    crear_transaccion_simple p item txs M fecha mp ref obs usr =
      .ok (txs ++ [{ monto := M, metodo_pago := mp, referencia := ref,
                     fecha_pago := fecha, observaciones := obs, usuario := usr }]) ∧
    saldo_disponible item
        (txs ++ [{ monto := M, metodo_pago := mp, referencia := ref,
                   fecha_pago := fecha, observaciones := obs, usuario := usr }]) =
      item.monto - (total_transacciones txs + M) := by
  constructor
  · have hm : ¬ (M < 0) := by omega
    simp [crear_transaccion_simple, hm, hcerrado]
  · simp [saldo_disponible, total_transacciones]

/-- Witness for C3, the spec scenario: item amount 50000, post 20000 then
40000 — both succeed and the final balance is -10000. -/
theorem sobregiro_sin_chequeo_de_saldo_witness :
    crear_transaccion_simple presupuestoCerradoEj itemInsumos50Ej [] 20000 10
      "efectivo" "" "" none = .ok [tx20000Ej] ∧
    saldo_disponible itemInsumos50Ej [tx20000Ej] = 30000 ∧
    crear_transaccion_simple presupuestoCerradoEj itemInsumos50Ej [tx20000Ej] 40000 11
      "efectivo" "" "" none = .ok [tx20000Ej, tx40000Ej] ∧
    saldo_disponible itemInsumos50Ej [tx20000Ej, tx40000Ej] = -10000 := by
  have h1 := sobregiro_sin_chequeo_de_saldo presupuestoCerradoEj itemInsumos50Ej []
    20000 10 "efectivo" "" "" none rfl (by decide)
  have h2 := sobregiro_sin_chequeo_de_saldo presupuestoCerradoEj itemInsumos50Ej
    [tx20000Ej] 40000 11 "efectivo" "" "" none rfl (by decide)
  exact ⟨h1.1, by decide, h2.1, by decide⟩

/-- C4 counterexample: the claim states that EVERY budget-creating operation
rejects a name that equals an existing budget name up to case. Copying a
budget under the new name "ENERO" while a budget "enero" exists succeeds, and
afterwards both case-equal names coexist in the budget table. -/
theorem copiar_presupuesto_duplica_nombre :
    copiar_presupuesto ["enero"] [] "ENERO" = .ok (["enero", "ENERO"], []) ∧
    lower "ENERO" = lower "enero" :=
  ⟨rfl, by decide⟩

/-- C4 amended: case-insensitive name uniqueness is enforced only on the
form path — `clean_nombre` rejects any name that matches an existing budget
name up to case — while `copiar_presupuesto` performs no uniqueness check at
all and succeeds for every non-empty new name. -/
theorem unicidad_nombre_solo_formulario (existentes : List String)
    (nombre e : String) (items : List ItemPresupuesto) (nombre_nuevo : String)
    (he : e ∈ existentes) (hci : lower e = lower (strip nombre))
    (hnn : nombre_nuevo ≠ "") :
    (∃ msg, clean_nombre existentes nombre = .error msg) ∧
    copiar_presupuesto existentes items nombre_nuevo =
      .ok (existentes ++ [nombre_nuevo], copiar_items_de_presupuesto items []) := by
  constructor
  · simp only [clean_nombre]
    split_ifs with h1 h2 h3
    · exact ⟨_, rfl⟩
    · exact ⟨_, rfl⟩
    · exact ⟨_, rfl⟩
    · exfalso
      simp at h3
      exact (h3 e he) hci
  · simp [copiar_presupuesto, hnn]

/-- Witness for C4 amended: with existing budget "enero", the form rejects
"ENERO" while the copy path accepts it. -/
theorem unicidad_nombre_solo_formulario_witness :
    (∃ msg, clean_nombre ["enero"] "ENERO" = .error msg) ∧
    copiar_presupuesto ["enero"] [] "Febrero" = .ok (["enero", "Febrero"], []) :=
  unicidad_nombre_solo_formulario ["enero"] "ENERO" "enero" [] "Febrero"
    (by decide) (by decide) (by decide)

/-- C5: registering a payment on a pending payable appends exactly one
history entry carrying the full amount and state "pagado", marks the payable
paid with payment date today; registering again on the now-paid payable
fails with the state error and changes nothing. The acting user `u` is the
one the view resolves (authenticated caller, else the first existing user). -/
theorem registrar_pago_una_sola_vez (c : CuentaPorPagar)
    (historial : List HistorialPago) (current_user : Option Nat)
    (usuarios : List Nat) (hoy : Int) (u : Nat) (hpend : c.estado = "pendiente")
    (hres : current_user.orElse (fun _ => get_or_create_default_user usuarios) = some u) :
    registrar_pago c historial current_user usuarios hoy =
      .ok ({ c with estado := "pagado", fecha_pago := some hoy },
        historial ++ [{ monto_pagado := c.monto, metodo_pago := "otros",
                        referencia := "PAGO_REGISTRADO",
                        observaciones := "Pago registrado mediante confirmación",
                        usuario := u, estado := "pagado" }]) ∧
    ∀ historial2 cu2 us2 hoy2,
      registrar_pago { c with estado := "pagado", fecha_pago := some hoy }
          historial2 cu2 us2 hoy2 =
        .error "No se puede registrar pago en una cuenta pagada o anulada" := by
  constructor
  · simp [registrar_pago, CuentaPorPagar.puede_modificar, hpend, hres]
  · intro historial2 cu2 us2 hoy2
    simp [registrar_pago, CuentaPorPagar.puede_modificar]

/-- Witness for C5 at a concrete pending payable with user table [7]. -/
theorem registrar_pago_una_sola_vez_witness :
    registrar_pago cuentaPendienteEj [] none [7] 20000 =
      .ok ({ cuentaPendienteEj with estado := "pagado", fecha_pago := some 20000 },
        [{ monto_pagado := 150000, metodo_pago := "otros",
           referencia := "PAGO_REGISTRADO",
           observaciones := "Pago registrado mediante confirmación",
           usuario := 7, estado := "pagado" }]) ∧
    registrar_pago { cuentaPendienteEj with estado := "pagado", fecha_pago := some 20000 }
        [] none [7] 20001 =
      .error "No se puede registrar pago en una cuenta pagada o anulada" := by
  have h := registrar_pago_una_sola_vez cuentaPendienteEj [] none [7] 20000 7 rfl rfl
  exact ⟨h.1, h.2 [] none [7] 20001⟩

/-- C6: the claim states that, with no authenticated caller, the acting user
is the first existing user when any exists, otherwise the well-known
"sistema_default" account created on demand — so the history entry always
has a non-null user. The code keeps the first-user part, but on an empty user
table `User.objects.first()` returns None without raising, the except branch
that would create "sistema_default" never runs, and the registration fails
on the non-nullable usuario column with no history entry created. -/
theorem usuario_fallback_inalcanzable :
    get_or_create_default_user [7, 9] = some 7 ∧
    get_or_create_default_user [] = none ∧
    registrar_pago cuentaPendienteEj [] none [] 20000 =
      .error "IntegrityError: columna usuario no admite NULL" :=
  ⟨rfl, rfl, rfl⟩

/-- C7: for every payable, `dias_restantes` is the due date minus today when
pending and null when paid or voided; the display color is gray when
paid/voided, red exactly when the days remaining are at most 1 (including
negative, overdue), orange exactly between 2 and 5, green exactly from 6. -/
theorem dias_restantes_y_color_estado (c : CuentaPorPagar) (hoy : Int) :
    (c.estado = "pendiente" → c.dias_restantes hoy = some (c.fecha_limite - hoy)) ∧
    (c.estado = "pagado" ∨ c.estado = "anulado" →
      c.dias_restantes hoy = none ∧ c.get_color_estado hoy = "gray") ∧
    (c.estado = "pendiente" →
      ((c.get_color_estado hoy = "red" ↔ c.fecha_limite - hoy ≤ 1) ∧
       (c.get_color_estado hoy = "orange" ↔
          2 ≤ c.fecha_limite - hoy ∧ c.fecha_limite - hoy ≤ 5) ∧
       (c.get_color_estado hoy = "green" ↔ 6 ≤ c.fecha_limite - hoy))) := by
  have hpend : c.estado = "pendiente" →
      c.dias_restantes hoy = some (c.fecha_limite - hoy) := by
    intro h
    have hne : ¬ (c.estado = "pagado" ∨ c.estado = "anulado") := by
      rw [h]; decide
    simp [CuentaPorPagar.dias_restantes, hne]
  refine ⟨hpend, ?_, ?_⟩
  · intro h
    have h1 : c.dias_restantes hoy = none := by
      simp [CuentaPorPagar.dias_restantes, h]
    exact ⟨h1, by simp [CuentaPorPagar.get_color_estado, h1]⟩
  · intro h
    have h1 := hpend h
    simp only [CuentaPorPagar.get_color_estado, h1]
    split_ifs with h2 h3 h4
    · exact ⟨iff_of_true rfl (by omega), iff_of_false (by decide) (by omega),
        iff_of_false (by decide) (by omega)⟩
    · exact ⟨iff_of_true rfl (by omega), iff_of_false (by decide) (by omega),
        iff_of_false (by decide) (by omega)⟩
    · exact ⟨iff_of_false (by decide) (by omega), iff_of_true rfl (by omega),
        iff_of_false (by decide) (by omega)⟩
    · exact ⟨iff_of_false (by decide) (by omega), iff_of_false (by decide) (by omega),
        iff_of_true rfl (by omega)⟩

/-- Witness for C7, the spec scenario: a pending payable due 3 days ago has
-3 days remaining and color red. -/
theorem dias_restantes_y_color_estado_witness :
    cuentaPendienteEj.dias_restantes 0 = some (-3) ∧
    cuentaPendienteEj.get_color_estado 0 = "red" := by
  have h := dias_restantes_y_color_estado cuentaPendienteEj 0
  exact ⟨by simpa using h.1 rfl, (h.2.2 rfl).1.mpr (by decide)⟩

/-- C8: the claim states that an invoice number of exactly 50 characters is
accepted. Evaluating `CuentaPorPagar.clean` shows the code rejects length
50 (the guard is `len >= 50`) and accepts only up to 49 characters,
contradicting the column declaration `max_length=50` and its help text
"Máximo 50 caracteres". -/
theorem factura_de_50_caracteres_rechazada :
    cuentaFactura50Ej.numero_factura.length = 50 ∧
    CuentaPorPagar.clean cuentaFactura50Ej =
      .error "El número de factura debe tener menos de 50 caracteres." ∧
    cuentaFactura49Ej.numero_factura.length = 49 ∧
    CuentaPorPagar.clean cuentaFactura49Ej = .ok () :=
  ⟨by decide, rfl, by decide, rfl⟩

/-- C9: `copiar_presupuesto` succeeds on every non-empty new name, clones
every item with its amount — so the copied total equals the source total —
and resolves name collisions deterministically: a free name is kept
verbatim, a taken name gets the suffix of the smallest counter `n ≥ 1`
whose candidate "base (n)" is not yet used. -/
theorem copia_conserva_total_y_resuelve_nombres (presupuestos : List String)
    (items : List ItemPresupuesto) (nombres : List String)
    (base nombre_nuevo : String) (hnn : nombre_nuevo ≠ "") :
    copiar_presupuesto presupuestos items nombre_nuevo =
      .ok (presupuestos ++ [nombre_nuevo], copiar_items_de_presupuesto items []) ∧
    total_items (copiar_items_de_presupuesto items []) = total_items items ∧
    (base ∉ nombres → nombre_final nombres base = base) ∧
    (base ∈ nombres → ∃ n, 1 ≤ n ∧ nombre_final nombres base = candidato base n ∧
        candidato base n ∉ nombres ∧
        ∀ m, 1 ≤ m → m < n → candidato base m ∈ nombres) :=
  ⟨by simp [copiar_presupuesto, hnn], total_copiado items [],
    (nombre_final_spec nombres base).1, (nombre_final_spec nombres base).2⟩

/-- Witness for C9: a concrete copy preserves the total, and the second
occurrence of the name "Rent" resolves to "Rent (1)", which is free. -/
theorem copia_conserva_total_y_resuelve_nombres_witness :
    copiar_presupuesto ["Enero"] [⟨"Arriendo", "", 120000⟩, ⟨"Agua", "", 30000⟩]
        "Febrero" =
      .ok (["Enero", "Febrero"], [⟨"Arriendo", "", 120000⟩, ⟨"Agua", "", 30000⟩]) ∧
    total_items [⟨"Arriendo", "", 120000⟩, ⟨"Agua", "", 30000⟩] = 150000 ∧
    nombre_final ["Rent"] "Rent" = "Rent (1)" ∧
    nombre_final ["Rent"] "Rent" ∉ ["Rent"] := by
  have h := copia_conserva_total_y_resuelve_nombres ["Enero"]
    [⟨"Arriendo", "", 120000⟩, ⟨"Agua", "", 30000⟩] ["Rent"] "Rent" "Febrero"
    (by decide)
  obtain ⟨n, -, heq, hfree, -⟩ := h.2.2.2 (by decide)
  have hcopy : copiar_items_de_presupuesto
      [⟨"Arriendo", "", 120000⟩, ⟨"Agua", "", 30000⟩] ([] : List String) =
      [(⟨"Arriendo", "", 120000⟩ : ItemPresupuesto), ⟨"Agua", "", 30000⟩] := by decide
  refine ⟨?_, by decide, by decide, ?_⟩
  · rw [h.1, hcopy]; rfl
  · rw [heq]; exact hfree

/-- C10: in `copiar_items` the collision check is exact string membership
while the stored unique constraint compares names case-insensitively: for a
source item whose name differs from an existing destination item only in
case, no suffix is applied, the insert hits the constraint, the error is
swallowed, the item is silently not copied, and the operation still reports
success counting only the remaining items. -/
theorem copiar_items_omite_choque_de_mayusculas (d i1 i2 : ItemPresupuesto)
    (hne1 : i1.nombre ≠ d.nombre) (hci1 : lower i1.nombre = lower d.nombre)
    (hne2 : i2.nombre ≠ d.nombre) (hci2 : lower i2.nombre ≠ lower d.nombre) :
    nombre_final [d.nombre] i1.nombre = i1.nombre ∧
    copiar_items [i1] [d] 0 = ([d], 0) ∧
    copiar_items [i1, i2] [d] 0 = ([d, i2], 1) := by
  have nf1 := (nombre_final_spec [d.nombre] i1.nombre).1 (by simp [hne1])
  have nf2 := (nombre_final_spec [d.nombre] i2.nombre).1 (by simp [hne2])
  obtain ⟨n1, s1, m1⟩ := i1
  obtain ⟨n2, s2, m2⟩ := i2
  obtain ⟨nd, sd, md⟩ := d
  simp only [ItemPresupuesto.nombre] at nf1 nf2 hne1 hci1 hne2 hci2
  have hins1 : inserta_item_ci [⟨nd, sd, md⟩] ⟨n1, s1, m1⟩ = none := by
    simp [inserta_item_ci, hci1]
  have hins2 : inserta_item_ci [⟨nd, sd, md⟩] ⟨n2, s2, m2⟩ =
      some [⟨nd, sd, md⟩, ⟨n2, s2, m2⟩] := by
    simp [inserta_item_ci, Ne.symm hci2]
  refine ⟨nf1, ?_, ?_⟩
  · simp only [copiar_items, List.map, nf1, hins1]
  · simp only [copiar_items, List.map, nf1, nf2, hins1, hins2]

/-- Witness for C10: destination has "RENT"; copying "rent" is silently
skipped while "Agua" is copied, and the operation reports one copied item. -/
theorem copiar_items_omite_choque_de_mayusculas_witness :
    nombre_final ["RENT"] "rent" = "rent" ∧
    copiar_items [⟨"rent", "", 200000⟩] [⟨"RENT", "", 100000⟩] 0 =
      ([⟨"RENT", "", 100000⟩], 0) ∧
    copiar_items [⟨"rent", "", 200000⟩, ⟨"Agua", "", 30000⟩]
        [⟨"RENT", "", 100000⟩] 0 =
      ([⟨"RENT", "", 100000⟩, ⟨"Agua", "", 30000⟩], 1) := by
  have h := copiar_items_omite_choque_de_mayusculas ⟨"RENT", "", 100000⟩
    ⟨"rent", "", 200000⟩ ⟨"Agua", "", 30000⟩ (by decide) (by decide)
    (by decide) (by decide)
  exact ⟨h.1, h.2.1, h.2.2⟩

end Presupuestos
